import Mathlib

/-!
Verification development for the CloudCIX robot agent.

Shallow embedding of the worker tasks (src/tasks/vm/build.py, src/tasks/vm/scrub.py,
src/tasks/virtual_router/scrub.py, src/tasks/backup/build.py), the API client helpers
(src/utils.py, src/mainloop.py) and the token holder (src/cloudcix_token.py).

Each worker is modelled as a pure function from an environment — the sequence of
responses the external API and the remote channel would give it during the run — to
the trace of side effects it performs (state writes, remote executions, reschedules,
failure emails) together with how the run ends (normal return with the reason the code
tags on its span, or an uncaught exception).
-/

namespace Robot

/-- Modelled from the spec: the `state` module imported by every task file is not
present under src; section 3 of the specification lists its canonical constants, which
the tasks only ever compare for equality, so it is embedded as an enumeration. -/
inductive RState
  | REQUESTED | BUILDING | RUNNING
  | QUIESCE | QUIESCING | QUIESCED
  | RESTART | RESTARTING
  | SCRUB | SCRUB_PREP | SCRUB_QUEUE | SCRUBBING
  | CLOSED
  | RUNNING_UPDATE | RUNNING_UPDATING | QUIESCED_UPDATE | QUIESCED_UPDATING
  | UNRESOURCED
  deriving DecidableEq, Repr

/-- The value of server['type']['name'] that the workers dispatch on.  The source
compares it against the three known names; `other` stands for any further name,
which every worker treats as an unsupported server type. -/
inductive ServerTypeName
  | HyperV | KVM | Phantom | other
  deriving DecidableEq, Repr

/-- Result of calling a builder/scrubber (the remote-execution attempt): it returns a
boolean, or raises, in which case the task's try/except catches it and the local
success flag keeps its initial value False. -/
inductive ExecResult
  | ok (success : Bool)
  | exn
  deriving DecidableEq, Repr

/-- The resource whose endpoint a state write goes to. -/
inductive Res
  | vm | virtual_router | backup
  deriving DecidableEq, Repr

/-- One observable side effect of a worker run, in program order:
an API state write (the update request is issued; whether the API accepted it is part
of the environment), a remote execution over SSH/WinRM, a celery reschedule of the
same task with an eta the given number of seconds away, or a failure email. -/
inductive Eff
  | apiWrite (res : Res) (st : RState)
  | remoteExec
  | reschedule (seconds : Nat)
  | email
  deriving DecidableEq, Repr

/-- The reasons the tasks tag on their span when they return. -/
inductive Reason
  | already_deleted | invalid_id | not_in_valid_state
  | could_not_update_state | server_not_read
  | vr_unresourced | vr_not_ready | postponed
  | done (success : Bool)
  deriving DecidableEq, Repr

/-- How a worker run ends: a normal return carrying the span tag the code sets, or an
uncaught exception propagating out of the task body. -/
inductive Outcome
  | ret (r : Reason)
  | exnKeyError
  deriving DecidableEq, Repr

/-- A worker run: the ordered effect trace and the way it ended. -/
structure WorkerRun where
  effects : List Eff
  outcome : Outcome
  deriving DecidableEq, Repr

/-- The success flag computed by the server-type dispatch blocks shared by the VM
build and VM scrub tasks: Phantom short-circuits to True, HyperV/KVM run the remote
builder/scrubber (an exception leaves the flag False), anything else is unsupported
and leaves the flag False. -/
def dispatchSuccess (t : ServerTypeName) (r : ExecResult) : Bool :=
  match t with
  | .Phantom => true
  | .HyperV | .KVM => match r with | .ok b => b | .exn => false
  | .other => false

/-- The remote-execution effects of the same dispatch blocks: only HyperV and KVM
reach the remote channel. -/
def dispatchExec (t : ServerTypeName) : List Eff :=
  match t with
  | .HyperV | .KVM => [.remoteExec]
  | .Phantom | .other => []

/-! ## VM build task — src/tasks/vm/build.py -/

/-- Environment of one run of _build_vm: the VM read through utils.api_read (none
means the read failed and an empty dict came back), the virtual-router read, the HTTP
status of the update to BUILDING, the server read (none means unreadable, otherwise
the type name), and the builder's result. The statuses of the RUNNING and UNRESOURCED
updates are only logged by the code and never branch, so they are not part of the
environment. -/
structure VMBuildEnv where
  vmRead : Option RState
  vrRead : Option RState
  updateBuildingStatus : Nat
  serverRead : Option ServerTypeName
  buildResult : ExecResult
  deriving DecidableEq, Repr

/-- The _unresource helper of src/tasks/vm/build.py: update the VM to UNRESOURCED,
then send the build-failure email. -/
def vmBuildUnresource : List Eff := [.apiWrite .vm .UNRESOURCED, .email]

/-- Shallow embedding of _build_vm (src/tasks/vm/build.py). Mirrors the source's
control flow in order: read VM, trigger-state guard, virtual-router gate, update to
BUILDING (aborting unless HTTP 200), server read, server-type dispatch, then the
success or failure tail. Reading vm_vr['state'] from the empty dict that
utils.api_read returns on error raises KeyError, which nothing in the task catches. -/
def vmBuild (env : VMBuildEnv) : WorkerRun :=
  match env.vmRead with
  | none => ⟨[], .ret .invalid_id⟩
  | some vmState =>
    if vmState ≠ .REQUESTED then ⟨[], .ret .not_in_valid_state⟩
    else
      match env.vrRead with
      | none => ⟨[], .exnKeyError⟩
      | some vrState =>
        if vrState = .UNRESOURCED then ⟨vmBuildUnresource, .ret .vr_unresourced⟩
        else if vrState ≠ .RUNNING then ⟨[.reschedule 10], .ret .vr_not_ready⟩
        else
          let t : List Eff := [.apiWrite .vm .BUILDING]
          if env.updateBuildingStatus ≠ 200 then ⟨t, .ret .could_not_update_state⟩
          else
            match env.serverRead with
            | none => ⟨t ++ vmBuildUnresource, .ret .server_not_read⟩
            | some serverType =>
              let success := dispatchSuccess serverType env.buildResult
              if success then
                ⟨t ++ dispatchExec serverType ++ [.apiWrite .vm .RUNNING]
                   ++ (if serverType = .Phantom then [] else [.email]),
                 .ret (.done true)⟩
              else
                ⟨t ++ dispatchExec serverType ++ vmBuildUnresource, .ret (.done false)⟩

/-! ## VM scrub task — src/tasks/vm/scrub.py -/

/-- Environment of one run of _scrub_vm: the HTTP status and state of the direct VM
read, the status the API gives the update to SCRUBBING (the code never inspects it),
the server read and the scrubber result. -/
structure VMScrubEnv where
  readStatus : Nat
  vmState : RState
  updateScrubbingStatus : Nat
  serverRead : Option ServerTypeName
  scrubResult : ExecResult
  deriving DecidableEq, Repr

/-- Shallow embedding of _scrub_vm (src/tasks/vm/scrub.py). The update to SCRUBBING
is issued after the trigger-state guard and its response status is never checked; the
server-not-readable path then returns with no further effect; on success the VM is
closed; on failure it is unresourced and a failure email is sent. -/
def scrubVM (env : VMScrubEnv) : WorkerRun :=
  if env.readStatus = 404 then ⟨[], .ret .already_deleted⟩
  else if env.readStatus ≠ 200 then ⟨[], .ret .invalid_id⟩
  else if env.vmState ≠ .SCRUB_QUEUE then ⟨[], .ret .not_in_valid_state⟩
  else
    let t : List Eff := [.apiWrite .vm .SCRUBBING]
    match env.serverRead with
    | none => ⟨t, .ret .server_not_read⟩
    | some serverType =>
      let success := dispatchSuccess serverType env.scrubResult
      if success then
        ⟨t ++ dispatchExec serverType ++ [.apiWrite .vm .CLOSED], .ret (.done true)⟩
      else
        ⟨t ++ dispatchExec serverType ++ [.apiWrite .vm .UNRESOURCED, .email],
         .ret (.done false)⟩

/-! ## VirtualRouter scrub task — src/tasks/virtual_router/scrub.py -/

/-- Environment of one run of _scrub_virtual_router: the direct read's status and
state, the status of the update to SCRUBBING (never inspected by the code), the
number of VMs the project list returns when CLOSED ones are excluded, and the
scrubber result. -/
structure VRScrubEnv where
  readStatus : Nat
  vrState : RState
  updateScrubbingStatus : Nat
  nonClosedVMCount : Nat
  scrubResult : ExecResult
  deriving DecidableEq, Repr

/-- Shallow embedding of _scrub_virtual_router (src/tasks/virtual_router/scrub.py).
After the trigger-state guard the router is updated to SCRUBBING (status unchecked),
and only then are the project's non-CLOSED VMs counted: if any remain the task
reschedules itself 60 seconds later and returns. Otherwise the scrubber runs
unconditionally (no server-type dispatch for routers). -/
def scrubVirtualRouter (env : VRScrubEnv) : WorkerRun :=
  if env.readStatus = 404 then ⟨[], .ret .already_deleted⟩
  else if env.readStatus ≠ 200 then ⟨[], .ret .invalid_id⟩
  else if env.vrState ≠ .SCRUB_QUEUE then ⟨[], .ret .not_in_valid_state⟩
  else
    let t : List Eff := [.apiWrite .virtual_router .SCRUBBING]
    if env.nonClosedVMCount > 0 then ⟨t ++ [.reschedule 60], .ret .postponed⟩
    else
      let success := match env.scrubResult with | .ok b => b | .exn => false
      if success then
        ⟨t ++ [.remoteExec, .apiWrite .virtual_router .CLOSED], .ret (.done true)⟩
      else
        ⟨t ++ [.remoteExec, .apiWrite .virtual_router .UNRESOURCED, .email],
         .ret (.done false)⟩

/-! ## Backup build task — src/tasks/backup/build.py -/

/-- Environment of one run of _build_backup, analogous to the VM build environment
minus the virtual-router gate (backups have none). -/
structure BackupBuildEnv where
  backupRead : Option RState
  updateBuildingStatus : Nat
  serverRead : Option ServerTypeName
  buildResult : ExecResult
  deriving DecidableEq, Repr

/-- The _unresource helper of src/tasks/backup/build.py. -/
def backupBuildUnresource : List Eff := [.apiWrite .backup .UNRESOURCED, .email]

/-- The server-type dispatch block of _build_backup has no Phantom branch: only
HyperV and KVM run a builder; every other name, Phantom included, falls into the
unsupported-server-type else and leaves success False. -/
def backupDispatchSuccess (t : ServerTypeName) (r : ExecResult) : Bool :=
  match t with
  | .HyperV | .KVM => match r with | .ok b => b | .exn => false
  | .Phantom | .other => false

/-- Remote-execution effects of the _build_backup dispatch block. -/
def backupDispatchExec (t : ServerTypeName) : List Eff :=
  match t with
  | .HyperV | .KVM => [.remoteExec]
  | .Phantom | .other => []

/-- Shallow embedding of _build_backup (src/tasks/backup/build.py): read, guard,
update to BUILDING (aborting unless HTTP 200), server read, dispatch without a
Phantom branch, then the success write to RUNNING (no success email for backups) or
the unresource tail. -/
def backupBuild (env : BackupBuildEnv) : WorkerRun :=
  match env.backupRead with
  | none => ⟨[], .ret .invalid_id⟩
  | some st =>
    if st ≠ .REQUESTED then ⟨[], .ret .not_in_valid_state⟩
    else
      let t : List Eff := [.apiWrite .backup .BUILDING]
      if env.updateBuildingStatus ≠ 200 then ⟨t, .ret .could_not_update_state⟩
      else
        match env.serverRead with
        | none => ⟨t ++ backupBuildUnresource, .ret .server_not_read⟩
        | some serverType =>
          let success := backupDispatchSuccess serverType env.buildResult
          if success then
            ⟨t ++ backupDispatchExec serverType ++ [.apiWrite .backup .RUNNING],
             .ret (.done true)⟩
          else
            ⟨t ++ backupDispatchExec serverType ++ backupBuildUnresource,
             .ret (.done false)⟩

/-! ## Token holder — src/cloudcix_token.py -/

/-- The seconds attribute of a Python timedelta: the seconds component of the elapsed
time after whole days are stripped, so it wraps every 86400 seconds. The token
property computes (utcnow - created).seconds, not total elapsed seconds. -/
def timedeltaSeconds (elapsedSeconds : Nat) : Nat := elapsedSeconds % 86400

/-- The refresh test of the Token.token property (src/cloudcix_token.py):
(utcnow() - self._created).seconds / 60 > self.THRESHOLD with THRESHOLD = 40, where
the division is Python float (exact) division, embedded over the rationals. -/
def tokenNeedsRefresh (elapsedSeconds : Nat) : Bool :=
  decide ((timedeltaSeconds elapsedSeconds : ℚ) / 60 > 40)

/-- Shallow embedding of the Token.token property: given the elapsed seconds since
self._created and the stored and would-be-fresh token values, return the value the
read yields together with whether a new token was issued (and the creation timestamp
reset) before returning. -/
def tokenRead {α : Type} (elapsedSeconds : Nat) (stored fresh : α) : α × Bool :=
  if tokenNeedsRefresh elapsedSeconds then (fresh, true) else (stored, false)

/-! ## API client list helper — src/utils.py api_list -/

/-- One response to a list request: HTTP status, whether a 401 response's detail
contains the token-is-expired marker, the page's content records (opaque, kept as
naturals), and the _metadata total_records field. -/
structure ListResp where
  status : Nat
  tokenExpired : Bool
  content : List Nat
  totalRecords : Nat
  deriving DecidableEq, Repr

/-- The pagination while-loop of api_list (src/utils.py): while the accumulated
objects number fewer than total_records, request the next page; a 401 token-expired
response only mutates a throwaway dict (response.json() yields a fresh dict, so the
assignment has no effect) before falling into the generic non-200 branch, which
returns the partial accumulation without retrying the page; a 200 page extends the
accumulation. The environment supplies the successive page responses as a list; an
exhausted environment ends the run with what has accumulated. -/
def apiListLoop (pages : List ListResp) (objects : List Nat) (total : Nat) :
    List Nat :=
  if total ≤ objects.length then objects
  else
    match pages with
    | [] => objects
    | r :: rest =>
      if r.status ≠ 200 then objects
      else apiListLoop rest (objects ++ r.content) total

/-- Shallow embedding of api_list (src/utils.py): the head of the response stream
answers the initial page-0 request. A 401 token-expired first response restarts the
whole call (return api_list(client, params)) against the rest of the stream; any
other non-200 first response yields the empty deque; a 200 first response seeds the
accumulation and total_records and enters the pagination loop. -/
def api_list : List ListResp → List Nat
  | [] => []
  | r :: rest =>
    if r.status = 401 ∧ r.tokenExpired = true then api_list rest
    else if r.status ≠ 200 then []
    else apiListLoop rest r.content r.totalRecords

/-! ## Polling loop GET — src/mainloop.py run_robot_get -/

/-- One response to an IAAS.run_robot.list request: HTTP status, the token-expired
marker of a 401 detail, and the content's project_ids list (the remaining content
fields do not affect control flow). -/
structure RunRobotResp where
  status : Nat
  tokenExpired : Bool
  projectIds : List Nat
  deriving DecidableEq, Repr

/-- Shallow embedding of run_robot_get (src/mainloop.py). On a 401 token-expired
response the function calls itself recursively but discards the returned value (the
source line is a bare call with no return), then continues with the ORIGINAL
response: its status is not 200, so the function logs and returns None. A 200
response returns the content when project_ids is non-empty and None otherwise. The
response stream supplies successive answers to successive requests. -/
def run_robot_get : List RunRobotResp → Option RunRobotResp
  | [] => none
  | r :: rest =>
    let _discarded := if r.status = 401 ∧ r.tokenExpired = true then run_robot_get rest
                      else none
    if r.status ≠ 200 then none
    else if r.projectIds.length > 0 then some r
    else none

/-- Shallow embedding of api_read (src/utils.py) over a response stream: unlike
run_robot_get, a 401 token-expired response RETURNS the recursive retry
(return api_read(client, pk)); a 200 response returns its content record and any
other status returns the empty record. The record is kept abstract as the whole
response. -/
def api_read : List RunRobotResp → Option RunRobotResp
  | [] => none
  | r :: rest =>
    if r.status = 401 ∧ r.tokenExpired = true then api_read rest
    else if r.status = 200 then some r
    else none

/-! ## Theorems -/

/-- Claim C4: for every worker run where the resource read from the API is in a state
different from the operation's expected trigger state, the worker returns without
performing any API write and without any remote execution — duplicate dispatch with
the resource already past its trigger state is a no-op. Established for the VM build
worker (trigger REQUESTED), the VM scrub and VirtualRouter scrub workers (trigger
SCRUB_QUEUE) and the Backup build worker (trigger REQUESTED): the effect trace of
such a run is empty. -/
theorem claim_C4_stale_state_noop :
    (∀ (env : VMBuildEnv) (s : RState), env.vmRead = some s → s ≠ .REQUESTED →
      vmBuild env = ⟨[], .ret .not_in_valid_state⟩) ∧
    (∀ (env : VMScrubEnv), env.readStatus = 200 → env.vmState ≠ .SCRUB_QUEUE →
      scrubVM env = ⟨[], .ret .not_in_valid_state⟩) ∧
    (∀ (env : VRScrubEnv), env.readStatus = 200 → env.vrState ≠ .SCRUB_QUEUE →
      scrubVirtualRouter env = ⟨[], .ret .not_in_valid_state⟩) ∧
    (∀ (env : BackupBuildEnv) (s : RState), env.backupRead = some s → s ≠ .REQUESTED →
      backupBuild env = ⟨[], .ret .not_in_valid_state⟩) := by
  refine ⟨?_, ?_, ?_, ?_⟩
  · intro env s h hs
    simp [vmBuild, h, hs]
  · intro env h hs
    simp [scrubVM, h, hs]
  · intro env h hs
    simp [scrubVirtualRouter, h, hs]
  · intro env s h hs
    simp [backupBuild, h, hs]

/-- Witness for claim C4: concrete stale-state runs of all four workers are no-ops. -/
theorem claim_C4_stale_state_noop_witness :
    vmBuild ⟨some .RUNNING, none, 200, none, .exn⟩ = ⟨[], .ret .not_in_valid_state⟩ ∧
    scrubVM ⟨200, .RUNNING, 500, none, .exn⟩ = ⟨[], .ret .not_in_valid_state⟩ ∧
    scrubVirtualRouter ⟨200, .RUNNING, 500, 0, .exn⟩ = ⟨[], .ret .not_in_valid_state⟩ ∧
    backupBuild ⟨some .CLOSED, 200, none, .exn⟩ = ⟨[], .ret .not_in_valid_state⟩ :=
  ⟨claim_C4_stale_state_noop.1 _ _ rfl (by decide),
   claim_C4_stale_state_noop.2.1 _ rfl (by decide),
   claim_C4_stale_state_noop.2.2.1 _ rfl (by decide),
   claim_C4_stale_state_noop.2.2.2 _ _ rfl (by decide)⟩

/-- Claim C10: in a VM build run where the VM read and the trigger-state guard
succeed but the virtual-router read comes back as the empty record, the worker raises
an uncaught KeyError on vm_vr['state'] and writes no state for the VM in that run. -/
theorem claim_C10_vr_read_keyerror :
    ∀ (env : VMBuildEnv), env.vmRead = some .REQUESTED → env.vrRead = none →
      vmBuild env = ⟨[], .exnKeyError⟩ := by
  intro env h1 h2
  simp [vmBuild, h1, h2]

/-- Witness for claim C10: a concrete run with an unreadable virtual router ends in
the uncaught KeyError with an empty effect trace. -/
theorem claim_C10_vr_read_keyerror_witness :
    vmBuild ⟨some .REQUESTED, none, 200, some .KVM, .ok true⟩ = ⟨[], .exnKeyError⟩ :=
  claim_C10_vr_read_keyerror _ rfl rfl

/-- Claim C5: in a VM build run on a VM in state REQUESTED, if the project's
virtual router is UNRESOURCED the VM is moved to UNRESOURCED (and the failure email
sent); if the router is in any state other than RUNNING and other than UNRESOURCED
the worker writes no VM state and reschedules the build 10 seconds later; and only
when the router is RUNNING does the worker issue the update to BUILDING (the first
effect of the run) and proceed. -/
theorem claim_C5_vm_build_vr_gate :
    ∀ (env : VMBuildEnv) (vr : RState), env.vmRead = some .REQUESTED →
      env.vrRead = some vr →
      (vr = .UNRESOURCED →
        vmBuild env = ⟨vmBuildUnresource, .ret .vr_unresourced⟩) ∧
      (vr ≠ .UNRESOURCED → vr ≠ .RUNNING →
        vmBuild env = ⟨[.reschedule 10], .ret .vr_not_ready⟩) ∧
      (vr = .RUNNING →
        (vmBuild env).effects.head? = some (.apiWrite .vm .BUILDING)) := by
  intro env vr h1 h2
  refine ⟨?_, ?_, ?_⟩
  · intro hvr
    simp [vmBuild, h1, h2, hvr]
  · intro hvr1 hvr2
    simp [vmBuild, h1, h2, hvr1, hvr2]
  · intro hvr
    subst hvr
    by_cases hu : env.updateBuildingStatus = 200
    · rcases hs : env.serverRead with _ | t
      · simp [vmBuild, h1, h2, hu, hs]
      · by_cases hb : dispatchSuccess t env.buildResult = true
        · simp [vmBuild, h1, h2, hu, hs, hb]
        · simp [vmBuild, h1, h2, hu, hs, hb]
    · simp [vmBuild, h1, h2, hu]

/-- Witness for claim C5: the three router-gate behaviours at concrete inputs. -/
theorem claim_C5_vm_build_vr_gate_witness :
    vmBuild ⟨some .REQUESTED, some .UNRESOURCED, 200, some .KVM, .ok true⟩ =
      ⟨vmBuildUnresource, .ret .vr_unresourced⟩ ∧
    vmBuild ⟨some .REQUESTED, some .BUILDING, 200, some .KVM, .ok true⟩ =
      ⟨[.reschedule 10], .ret .vr_not_ready⟩ ∧
    (vmBuild ⟨some .REQUESTED, some .RUNNING, 200, some .KVM, .ok true⟩).effects.head? =
      some (.apiWrite .vm .BUILDING) :=
  ⟨(claim_C5_vm_build_vr_gate _ _ rfl rfl).1 rfl,
   (claim_C5_vm_build_vr_gate _ _ rfl rfl).2.1 (by decide) (by decide),
   (claim_C5_vm_build_vr_gate _ _ rfl rfl).2.2 rfl⟩

/-- Claim C1 counterexample: the claim states that when the trigger-to-in-progress
update does not return HTTP 200 the worker aborts with no remote execution and no
further API writes, naming the VM and VirtualRouter scrub workers.  In the code,
neither scrub worker inspects the response of its update to SCRUBBING: with that
update answered HTTP 500, the VM scrub run still executes remotely and still writes
CLOSED, and the VirtualRouter scrub run still executes remotely and writes CLOSED. -/
theorem claim_C1_counterexample :
    Eff.remoteExec ∈ (scrubVM ⟨200, .SCRUB_QUEUE, 500, some .KVM, .ok true⟩).effects ∧
    Eff.apiWrite .vm .CLOSED ∈
      (scrubVM ⟨200, .SCRUB_QUEUE, 500, some .KVM, .ok true⟩).effects ∧
    Eff.remoteExec ∈ (scrubVirtualRouter ⟨200, .SCRUB_QUEUE, 500, 0, .ok true⟩).effects ∧
    Eff.apiWrite .virtual_router .CLOSED ∈
      (scrubVirtualRouter ⟨200, .SCRUB_QUEUE, 500, 0, .ok true⟩).effects := by
  decide

/-- Claim C1 amended: the build workers abort with no remote execution and no further
API writes when their trigger-to-in-progress update does not return HTTP 200 (the
only effect of such a run is the attempted update itself), but the scrub workers
never inspect the response of their update to SCRUBBING: a VM or VirtualRouter scrub
run is byte-identical whatever status that update returns. -/
theorem claim_C1_amended :
    (∀ (env : VMBuildEnv), env.vmRead = some .REQUESTED → env.vrRead = some .RUNNING →
      env.updateBuildingStatus ≠ 200 →
      vmBuild env = ⟨[.apiWrite .vm .BUILDING], .ret .could_not_update_state⟩) ∧
    (∀ (env : BackupBuildEnv), env.backupRead = some .REQUESTED →
      env.updateBuildingStatus ≠ 200 →
      backupBuild env = ⟨[.apiWrite .backup .BUILDING], .ret .could_not_update_state⟩) ∧
    (∀ (env : VMScrubEnv) (s : Nat),
      scrubVM { env with updateScrubbingStatus := s } = scrubVM env) ∧
    (∀ (env : VRScrubEnv) (s : Nat),
      scrubVirtualRouter { env with updateScrubbingStatus := s } =
        scrubVirtualRouter env) := by
  refine ⟨?_, ?_, ?_, ?_⟩
  · intro env h1 h2 hu
    simp [vmBuild, h1, h2, hu]
  · intro env h1 hu
    simp [backupBuild, h1, hu]
  · intro env s
    cases env
    rfl
  · intro env s
    cases env
    rfl

/-- Witness for the amended claim C1: a concrete aborted VM build, a concrete aborted
Backup build, and concrete scrub runs unchanged by a failed SCRUBBING update. -/
theorem claim_C1_amended_witness :
    vmBuild ⟨some .REQUESTED, some .RUNNING, 500, some .KVM, .ok true⟩ =
      ⟨[.apiWrite .vm .BUILDING], .ret .could_not_update_state⟩ ∧
    backupBuild ⟨some .REQUESTED, 500, some .KVM, .ok true⟩ =
      ⟨[.apiWrite .backup .BUILDING], .ret .could_not_update_state⟩ ∧
    scrubVM ⟨200, .SCRUB_QUEUE, 500, some .KVM, .ok true⟩ =
      scrubVM ⟨200, .SCRUB_QUEUE, 200, some .KVM, .ok true⟩ ∧
    scrubVirtualRouter ⟨200, .SCRUB_QUEUE, 500, 0, .ok true⟩ =
      scrubVirtualRouter ⟨200, .SCRUB_QUEUE, 200, 0, .ok true⟩ :=
  ⟨claim_C1_amended.1 _ rfl rfl (by decide),
   claim_C1_amended.2.1 _ rfl (by decide),
   claim_C1_amended.2.2.1 ⟨200, .SCRUB_QUEUE, 200, some .KVM, .ok true⟩ 500,
   claim_C1_amended.2.2.2 ⟨200, .SCRUB_QUEUE, 200, 0, .ok true⟩ 500⟩

/-- Claim C2, evaluated on the code at the failing input: a VirtualRouter in
SCRUB_QUEUE with one non-CLOSED VM left in the project. The run performs no remote
execution and reschedules itself 60 seconds later, as the claim says — but before
counting the VMs the code has already issued the state write to SCRUBBING, so the
router is NOT left at SCRUB_QUEUE; the rescheduled run will then find SCRUBBING,
fail its trigger-state guard and abort silently. -/
theorem claim_C2_code_evaluation :
    scrubVirtualRouter ⟨200, .SCRUB_QUEUE, 200, 1, .ok true⟩ =
      ⟨[.apiWrite .virtual_router .SCRUBBING, .reschedule 60], .ret .postponed⟩ ∧
    scrubVirtualRouter ⟨200, .SCRUBBING, 200, 0, .ok true⟩ =
      ⟨[], .ret .not_in_valid_state⟩ := by
  decide

/-- The last state write of an effect trace, if any: the state the API holds for the
resource when the run ends. -/
def lastStateWrite (l : List Eff) : Option (Res × RState) :=
  l.foldl (fun acc e => match e with | .apiWrite r s => some (r, s) | _ => acc) none

/-- Claim C3 counterexample: the claim states that every failing worker run ends with
the resource written to UNRESOURCED, naming the VM scrub worker's server-not-readable
path.  In the code that path returns immediately after the (unchecked) update to
SCRUBBING: the run's last — and only — state write is SCRUBBING, and no UNRESOURCED
write ever happens. -/
theorem claim_C3_counterexample :
    scrubVM ⟨200, .SCRUB_QUEUE, 200, none, .ok true⟩ =
      ⟨[.apiWrite .vm .SCRUBBING], .ret .server_not_read⟩ ∧
    lastStateWrite (scrubVM ⟨200, .SCRUB_QUEUE, 200, none, .ok true⟩).effects =
      some (.vm, .SCRUBBING) := by
  decide

/-- Claim C3 amended: the failure paths of the build workers (server not readable,
unsupported server type, failed or crashed builder) all end with the resource's last
state write being UNRESOURCED, and so do the VM scrub worker's remote-failure paths —
but the VM scrub worker's server-not-readable path is the exception: it returns with
SCRUBBING as the last state written and no UNRESOURCED write. -/
theorem claim_C3_amended :
    (∀ (env : VMBuildEnv), env.vmRead = some .REQUESTED → env.vrRead = some .RUNNING →
      env.updateBuildingStatus = 200 → env.serverRead = none →
      lastStateWrite (vmBuild env).effects = some (.vm, .UNRESOURCED)) ∧
    (∀ (env : VMBuildEnv) (t : ServerTypeName), env.vmRead = some .REQUESTED →
      env.vrRead = some .RUNNING → env.updateBuildingStatus = 200 →
      env.serverRead = some t → dispatchSuccess t env.buildResult = false →
      lastStateWrite (vmBuild env).effects = some (.vm, .UNRESOURCED)) ∧
    (∀ (env : VMScrubEnv) (t : ServerTypeName), env.readStatus = 200 →
      env.vmState = .SCRUB_QUEUE → env.serverRead = some t →
      dispatchSuccess t env.scrubResult = false →
      lastStateWrite (scrubVM env).effects = some (.vm, .UNRESOURCED)) ∧
    (∀ (env : VMScrubEnv), env.readStatus = 200 → env.vmState = .SCRUB_QUEUE →
      env.serverRead = none →
      lastStateWrite (scrubVM env).effects = some (.vm, .SCRUBBING) ∧
      Eff.apiWrite .vm .UNRESOURCED ∉ (scrubVM env).effects) := by
  refine ⟨?_, ?_, ?_, ?_⟩
  · intro env h1 h2 hu hs
    simp [vmBuild, h1, h2, hu, hs, vmBuildUnresource, lastStateWrite]
  · intro env t h1 h2 hu hs hb
    cases t <;>
      simp_all [vmBuild, dispatchSuccess, dispatchExec, vmBuildUnresource, lastStateWrite]
  · intro env t h1 h2 hs hb
    cases t <;>
      simp_all [scrubVM, dispatchSuccess, dispatchExec, lastStateWrite]
  · intro env h1 h2 hs
    simp [scrubVM, h1, h2, hs, lastStateWrite]

/-- Witness for the amended claim C3: the failure paths at concrete inputs. -/
theorem claim_C3_amended_witness :
    lastStateWrite (vmBuild ⟨some .REQUESTED, some .RUNNING, 200, none, .ok true⟩).effects =
      some (.vm, .UNRESOURCED) ∧
    lastStateWrite (vmBuild ⟨some .REQUESTED, some .RUNNING, 200, some .KVM, .ok false⟩).effects =
      some (.vm, .UNRESOURCED) ∧
    lastStateWrite (scrubVM ⟨200, .SCRUB_QUEUE, 200, some .HyperV, .exn⟩).effects =
      some (.vm, .UNRESOURCED) ∧
    lastStateWrite (scrubVM ⟨200, .SCRUB_QUEUE, 200, none, .ok true⟩).effects =
      some (.vm, .SCRUBBING) :=
  ⟨claim_C3_amended.1 _ rfl rfl rfl rfl,
   claim_C3_amended.2.1 _ .KVM rfl rfl rfl rfl (by decide),
   claim_C3_amended.2.2.1 _ .HyperV rfl rfl rfl (by decide),
   (claim_C3_amended.2.2.2 _ rfl rfl rfl).1⟩

/-- Claim C9 counterexample: the claim states that a Phantom server short-circuits
every worker to success, Backup and Snapshot workers included.  The Backup build
worker's dispatch has no Phantom branch: a Phantom server falls into the unsupported
server-type else, the run fails, and the backup is written to UNRESOURCED with a
failure email — not the success state. -/
theorem claim_C9_counterexample :
    backupBuild ⟨some .REQUESTED, 200, some .Phantom, .ok true⟩ =
      ⟨[.apiWrite .backup .BUILDING, .apiWrite .backup .UNRESOURCED, .email],
       .ret (.done false)⟩ := by
  decide

/-- Claim C9 amended: a Phantom server short-circuits the VM workers — a VM build on
Phantom performs no remote execution and writes only BUILDING then the success state
RUNNING (with no email, as Phantom also suppresses the success email), and a VM scrub
on Phantom performs no remote execution and writes only SCRUBBING then CLOSED — but
the Backup build worker has no Phantom branch and fails a Phantom backup to
UNRESOURCED. -/
theorem claim_C9_amended :
    (∀ (env : VMBuildEnv), env.vmRead = some .REQUESTED → env.vrRead = some .RUNNING →
      env.updateBuildingStatus = 200 → env.serverRead = some .Phantom →
      vmBuild env = ⟨[.apiWrite .vm .BUILDING, .apiWrite .vm .RUNNING],
                     .ret (.done true)⟩) ∧
    (∀ (env : VMScrubEnv), env.readStatus = 200 → env.vmState = .SCRUB_QUEUE →
      env.serverRead = some .Phantom →
      scrubVM env = ⟨[.apiWrite .vm .SCRUBBING, .apiWrite .vm .CLOSED],
                     .ret (.done true)⟩) ∧
    (∀ (env : BackupBuildEnv), env.backupRead = some .REQUESTED →
      env.updateBuildingStatus = 200 → env.serverRead = some .Phantom →
      backupBuild env =
        ⟨[.apiWrite .backup .BUILDING] ++ backupBuildUnresource, .ret (.done false)⟩) := by
  refine ⟨?_, ?_, ?_⟩
  · intro env h1 h2 hu hs
    simp [vmBuild, h1, h2, hu, hs, dispatchSuccess, dispatchExec]
  · intro env h1 h2 hs
    simp [scrubVM, h1, h2, hs, dispatchSuccess, dispatchExec]
  · intro env h1 hu hs
    simp [backupBuild, h1, hu, hs, backupDispatchSuccess, backupDispatchExec]

/-- Witness for the amended claim C9: the three Phantom behaviours at concrete
inputs. -/
theorem claim_C9_amended_witness :
    vmBuild ⟨some .REQUESTED, some .RUNNING, 200, some .Phantom, .exn⟩ =
      ⟨[.apiWrite .vm .BUILDING, .apiWrite .vm .RUNNING], .ret (.done true)⟩ ∧
    scrubVM ⟨200, .SCRUB_QUEUE, 200, some .Phantom, .exn⟩ =
      ⟨[.apiWrite .vm .SCRUBBING, .apiWrite .vm .CLOSED], .ret (.done true)⟩ ∧
    backupBuild ⟨some .REQUESTED, 200, some .Phantom, .exn⟩ =
      ⟨[.apiWrite .backup .BUILDING] ++ backupBuildUnresource, .ret (.done false)⟩ :=
  ⟨claim_C9_amended.1 _ rfl rfl rfl rfl,
   claim_C9_amended.2.1 _ rfl rfl rfl,
   claim_C9_amended.2.2 _ rfl rfl rfl⟩

/-- Claim C6, evaluated on the code at the failing input: the first run_robot.list
response is a 401 whose detail marks the token as expired, and the retried (second)
call succeeds with a non-empty project_ids list.  The claim says the caller observes
the retried call's content; but run_robot_get's recursive retry is a bare call whose
return value is discarded, after which the function falls through to the non-200
branch of the ORIGINAL response and returns None.  api_read, whose retry line does
return the recursive call, returns the second response's content as the claim
describes. -/
theorem claim_C6_code_evaluation :
    run_robot_get [⟨401, true, [1]⟩, ⟨200, false, [1]⟩] = none ∧
    api_list [⟨401, true, [5], 1⟩, ⟨200, false, [5], 1⟩] = [5] ∧
    api_read [⟨401, true, [1]⟩, ⟨200, false, [1]⟩] = some ⟨200, false, [1]⟩ := by
  decide

/-- The records carried by a list of page responses, in order. -/
def pageRecords (pages : List ListResp) : List Nat :=
  pages.foldr (fun r acc => r.content ++ acc) []

/-- The pagination loop returns the accumulation unchanged as soon as it has at least
total_records records, whatever pages remain. -/
theorem apiListLoop_stop (pages : List ListResp) (objects : List Nat) (total : Nat)
    (h : total ≤ objects.length) : apiListLoop pages objects total = objects := by
  cases pages <;> simp [apiListLoop, h]

/-- While short of total_records, a non-200 page response makes the loop return the
partial accumulation, whatever pages would follow. -/
theorem apiListLoop_error (r : ListResp) (rest : List ListResp) (objects : List Nat)
    (total : Nat) (h : ¬ total ≤ objects.length) (h2 : r.status ≠ 200) :
    apiListLoop (r :: rest) objects total = objects := by
  simp [apiListLoop, h, h2]

/-- While short of total_records, a 200 page response extends the accumulation and
the loop continues. -/
theorem apiListLoop_step (r : ListResp) (rest : List ListResp) (objects : List Nat)
    (total : Nat) (h : ¬ total ≤ objects.length) (h2 : r.status = 200) :
    apiListLoop (r :: rest) objects total =
      apiListLoop rest (objects ++ r.content) total := by
  simp [apiListLoop, h, h2]

/-- Over a run of all-200 page responses the loop accumulates page contents until it
reaches total_records or exhausts the supplied pages. -/
theorem apiListLoop_all_ok (pages : List ListResp) :
    ∀ (objects : List Nat) (total : Nat), (∀ r ∈ pages, r.status = 200) →
      total ≤ (apiListLoop pages objects total).length ∨
      apiListLoop pages objects total = objects ++ pageRecords pages := by
  induction pages with
  | nil =>
    intro objects total _
    right
    cases le_or_lt total objects.length with
    | inl h => simp [apiListLoop_stop _ _ _ h, pageRecords]
    | inr h => simp [apiListLoop, Nat.not_le.mpr h, pageRecords]
  | cons r rest ih =>
    intro objects total hok
    cases le_or_lt total objects.length with
    | inl h =>
      left
      rw [apiListLoop_stop _ _ _ h]
      exact h
    | inr h =>
      have hr : r.status = 200 := hok r (List.mem_cons_self r rest)
      rw [apiListLoop_step _ _ _ _ (Nat.not_le.mpr h) hr]
      cases ih (objects ++ r.content) total (fun p hp => hok p (List.mem_cons_of_mem r hp)) with
      | inl h2 => exact Or.inl h2
      | inr h2 =>
        right
        rw [h2]
        simp [pageRecords, List.append_assoc]

/-- Claim C7: the api_list pagination loop terminates exactly when the accumulated
records reach total_records — it returns the accumulation unchanged once it holds at
least total_records, keeps accumulating 200-pages while it holds fewer (until the
supplied responses run out), and on any mid-pagination response with a status other
than 200 it returns the partial accumulation at once, independent of everything that
would follow (so the failed page is never retried). -/
theorem claim_C7_pagination :
    (∀ (pages : List ListResp) (objects : List Nat) (total : Nat),
      total ≤ objects.length → apiListLoop pages objects total = objects) ∧
    (∀ (r : ListResp) (rest : List ListResp) (objects : List Nat) (total : Nat),
      objects.length < total → r.status ≠ 200 →
      apiListLoop (r :: rest) objects total = objects) ∧
    (∀ (pages : List ListResp) (objects : List Nat) (total : Nat),
      (∀ r ∈ pages, r.status = 200) →
      total ≤ (apiListLoop pages objects total).length ∨
      apiListLoop pages objects total = objects ++ pageRecords pages) :=
  ⟨fun pages objects total h => apiListLoop_stop pages objects total h,
   fun r rest objects total h h2 =>
     apiListLoop_error r rest objects total (Nat.not_le.mpr h) h2,
   fun pages objects total hok => apiListLoop_all_ok pages objects total hok⟩

/-- Witness for claim C7: concrete pagination runs — immediate exit at quota, partial
return on a mid-pagination 500, and full accumulation over 200-pages. -/
theorem claim_C7_pagination_witness :
    apiListLoop [⟨200, false, [9], 3⟩] [1, 2, 3] 3 = [1, 2, 3] ∧
    apiListLoop [⟨500, false, [9], 3⟩, ⟨200, false, [9], 3⟩] [1] 3 = [1] ∧
    apiListLoop [⟨200, false, [2], 3⟩, ⟨200, false, [3], 3⟩] [1] 3 = [1, 2, 3] := by
  refine ⟨claim_C7_pagination.1 _ _ _ (by decide),
          claim_C7_pagination.2.1 _ _ _ _ (by decide) (by decide), ?_⟩
  have h := claim_C7_pagination.2.2 [⟨200, false, [2], 3⟩, ⟨200, false, [3], 3⟩] [1] 3
    (by decide)
  revert h
  decide

/-- Claim C8, evaluated on the code at the failing input: a token created 86700
seconds (one day and five minutes) ago is older than 40 minutes, so the claim says
the read reissues it — but the property computes the timedelta's seconds COMPONENT,
which wraps every 86400 seconds, sees five minutes, and returns the stored token with
no refresh.  Below one day the behaviour matches the claim: no refresh at exactly
40 minutes (2400 s, the comparison is strict), refresh at 2460 s. -/
theorem claim_C8_code_evaluation :
    tokenRead 86700 (0 : Nat) 1 = (0, false) ∧
    (40 * 60 : Nat) < 86700 ∧
    tokenRead 2400 (0 : Nat) 1 = (0, false) ∧
    tokenRead 2460 (0 : Nat) 1 = (1, true) := by
  refine ⟨?_, by norm_num, ?_, ?_⟩ <;>
    norm_num [tokenRead, tokenNeedsRefresh, timedeltaSeconds]

end Robot
